import Mathlib

/-!
Shallow embedding of the stream-session orchestrator of
RtmpStreamOnSmartGlasses (src/src/index.ts) together with the web stop
route (src/unnamed/part_000, the webview route file). TypeScript `Map`s
become association lists, `undefined`-able fields become `Option`, the
two external network calls (the face-recognition configuration request
and the device transport) are supplied as oracle replies, and wall-clock
timestamps (`new Date()`) are passed in as a `now : Nat` parameter.
Effects that the orchestrator emits (display text, transport commands,
the configuration request) are collected in a list so that theorems can
state which commands were or were not issued.
-/

namespace Rtmp

/-- Stream mode enum from index.ts: `rtmp` | `hls` | `simulation`. -/
inductive StreamMode where
  | rtmp
  | hls
  | simulation
deriving DecidableEq, Repr

/-- The `status` field of `RtmpStreamStatus` in the SDK:
`stopped` | `initializing` | `active` | `error`. -/
inductive StatusKind where
  | stopped
  | initializing
  | activeK
  | errorK
deriving DecidableEq, Repr

/-- `RtmpStreamStatus` payload. The TS interface fixes
`type: GlassesToCloudMessageType.RTMP_STREAM_STATUS` as a literal type, so
the constant `type` field is omitted here; `stats` is the opaque payload
forwarded verbatim from the transport, modelled as an opaque string.
`new Date()` timestamps are natural numbers. -/
structure RtmpStreamStatus where
  status : StatusKind
  errorDetails : Option String := none
  timestamp : Nat := 0
  stats : Option String := none
deriving DecidableEq, Repr

/-- `UserStreamState` from index.ts. The non-owning `session : TpaSession`
handle is represented by a numeric id used to address display/transport
effects. Optional TS fields are `Option`. -/
structure UserStreamState where
  rtmpUrl : String
  streamStatus : RtmpStreamStatus
  sessionId : Nat
  faceHighlightingEnabled : Option Bool := none
  hlsUrl : Option String := none
  streamMode : Option StreamMode := none
deriving DecidableEq, Repr

/-- `UserPersistentSettings` from index.ts. -/
structure UserPersistentSettings where
  rtmpUrl : String
  streamMode : Option StreamMode := none
  faceHighlightingEnabled : Option Bool := none
deriving DecidableEq, Repr

/-- A TypeScript `Map<string, A>` as an association list. -/
def StoreMap (α : Type) : Type := List (String × α)

namespace StoreMap

/-- `Map.get`. -/
def get {α : Type} : StoreMap α → String → Option α
  | [], _ => none
  | (k, v) :: rest, key => if k = key then some v else get rest key

/-- `Map.set`: replace the binding in place if the key is present,
otherwise append. -/
def set {α : Type} : StoreMap α → String → α → StoreMap α
  | [], key, v => [(key, v)]
  | (k, w) :: rest, key, v =>
      if k = key then (key, v) :: rest else (k, w) :: set rest key v

/-- `Map.delete`. -/
def del {α : Type} : StoreMap α → String → StoreMap α
  | [], _ => []
  | (k, w) :: rest, key =>
      if k = key then del rest key else (k, w) :: del rest key

instance {α : Type} [DecidableEq α] : DecidableEq (StoreMap α) :=
  inferInstanceAs (DecidableEq (List (String × α)))

instance {α : Type} [Repr α] : Repr (StoreMap α) :=
  inferInstanceAs (Repr (List (String × α)))

theorem get_set_self {α : Type} (m : StoreMap α) (k : String) (v : α) :
    (m.set k v).get k = some v := by
  induction m with
  | nil => simp [set, get]
  | cons hd tl ih =>
    obtain ⟨k', w⟩ := hd
    by_cases h : k' = k <;> simp [set, get, h, ih]

theorem get_set_ne {α : Type} (m : StoreMap α) (k k' : String) (v : α)
    (h : k' ≠ k) : (m.set k v).get k' = m.get k' := by
  induction m with
  | nil => simp [set, get, Ne.symm h]
  | cons hd tl ih =>
    obtain ⟨k₀, w⟩ := hd
    by_cases h₀ : k₀ = k
    · subst h₀
      simp [set, get, Ne.symm h]
    · by_cases h₁ : k₀ = k' <;> simp [set, get, h₀, h₁, h, ih]

theorem get_del_self {α : Type} (m : StoreMap α) (k : String) :
    (m.del k).get k = none := by
  induction m with
  | nil => simp [del, get]
  | cons hd tl ih =>
    obtain ⟨k', w⟩ := hd
    by_cases h : k' = k <;> simp [del, get, h, ih]

theorem get_del_ne {α : Type} (m : StoreMap α) (k k' : String)
    (h : k' ≠ k) : (m.del k).get k' = m.get k' := by
  induction m with
  | nil => simp [del, get]
  | cons hd tl ih =>
    obtain ⟨k₀, w⟩ := hd
    by_cases h₀ : k₀ = k
    · subst h₀
      simp [del, get, Ne.symm h, ih]
    · by_cases h₁ : k₀ = k' <;> simp [del, get, h₀, h₁, h, ih]

theorem del_of_get_none {α : Type} (m : StoreMap α) (k : String)
    (h : m.get k = none) : m.del k = m := by
  induction m with
  | nil => simp [del]
  | cons hd tl ih =>
    obtain ⟨k', w⟩ := hd
    by_cases h' : k' = k
    · subst h'
      simp [get] at h
    · simp [get, h'] at h
      simp [del, h', ih h]

end StoreMap

/-- The two in-memory stores of `ExampleAugmentOSApp`:
`activeUserStates` and `persistentUserSettings`. -/
structure AppState where
  activeUserStates : StoreMap UserStreamState
  persistentUserSettings : StoreMap UserPersistentSettings
deriving DecidableEq, Repr

/-- `private defaultRtmpUrl` from index.ts. -/
def defaultRtmpUrl : String := "rtmp://0.0.0.0/s/streamKey"

/-- `getInitialStreamStatus()`: a fresh `stopped` status stamped with the
current time. -/
def getInitialStreamStatus (now : Nat) : RtmpStreamStatus :=
  { status := .stopped, errorDetails := none, timestamp := now, stats := none }

/-- Observable effects emitted towards the device channel and the external
highlighting service. `coordinatorConfig key outputHls outputRtmp` is the
POST to `/api/config/streamKey`; `showText` is `layouts.showTextWall`;
`requestStream`/`stopStreamCmd` are the transport stream commands. -/
inductive Effect where
  | coordinatorConfig (key : String) (outputHls : Bool) (outputRtmp : Option String)
  | showText (sessionId : Nat) (text : String)
  | requestStream (sessionId : Nat) (rtmpUrl : String)
  | stopStreamCmd (sessionId : Nat)
deriving DecidableEq, Repr

/-- Error taxonomy for the thrown `Error`s of index.ts. -/
inductive StreamError where
  | noActiveSession
  | invalidUrl
  | unsupportedModeCombination
  | highlightConfigError (detail : String)
  | transportError (detail : String)
deriving DecidableEq, Repr

/-- Oracle reply of the external face-recognition configuration request
(`fetch` of `/api/config/streamKey`). `ok = false` covers both a network
failure and a non-ok HTTP response; `outputUrl` is the optional
`output_url` field of the response JSON. -/
structure CoordinatorReply where
  ok : Bool
  statusText : String := ""
  outputUrl : Option String := none
deriving DecidableEq, Repr

/-- Oracle reply of an awaited transport command
(`requestStream` / `stopStream`). -/
structure TransportReply where
  ok : Bool
  errMsg : String := ""
deriving DecidableEq, Repr

/-- Outcome of one public orchestrator operation: the new store state, the
effects issued (in order), and `none` for success or the thrown error. -/
structure OpResult where
  state : AppState
  effects : List Effect
  result : Option StreamError
deriving DecidableEq, Repr

/-- JavaScript truthiness of `a || b || c` over strings (an empty string is
falsy), for `rtmpUrl || userState.rtmpUrl || this.defaultRtmpUrl`. -/
def jsOr3 (a : Option String) (b c : String) : String :=
  match a with
  | some s => if s = "" then (if b = "" then c else b) else s
  | none => if b = "" then c else b

/-- Truthiness of the optional `configResult.output_url`. -/
def jsTruthyOptStr (o : Option String) : Bool :=
  match o with
  | some s => !(s = "")
  | none => false

/-- The character rewrite of `userId.replace(/[@]/g, "_")`. -/
def keyOfChars (cs : List Char) : List Char :=
  cs.map (fun c => if c = '@' then '_' else c)

/-- Stream key built in `startStreamForUser` (index.ts line 271). -/
def streamKey (userId : String) : String :=
  "user_" ++ ⟨keyOfChars userId.data⟩

/-- Stream key built in the web routes (`/api/faces` in src/src/webview.ts
and in the unnamed route file): textually the same expression. -/
def webStreamKey (userId : String) : String :=
  "user_" ++ ⟨keyOfChars userId.data⟩

/-- Partial `UserPersistentSettings` as handed to
`updatePersistentSettingsForUser`. The outer `Option` is presence of the
key on the JS object; the inner `Option` of the two optional fields is the
TS value, which may itself be `undefined`. -/
structure PartialSettings where
  rtmpUrl : Option String := none
  streamMode : Option (Option StreamMode) := none
  faceHighlightingEnabled : Option (Option Bool) := none
deriving DecidableEq, Repr

/-- The mirror step of `updatePersistentSettingsForUser`: each setting
whose value is defined (`!== undefined`) is copied onto the active session
state. -/
def mirrorSettings (settings : PartialSettings) (us : UserStreamState) :
    UserStreamState :=
  let us1 :=
    match settings.streamMode with
    | some (some m) => { us with streamMode := some m }
    | _ => us
  let us2 :=
    match settings.faceHighlightingEnabled with
    | some (some b) => { us1 with faceHighlightingEnabled := some b }
    | _ => us1
  match settings.rtmpUrl with
  | some u => { us2 with rtmpUrl := u }
  | none => us2

/-- `updatePersistentSettingsForUser`: spread-merge into the persistent
entry (a key present on the partial object overwrites, even with an
undefined value), then mirror each value that is defined into the active
session state when one exists. -/
def updatePersistentSettingsForUser (st : AppState) (userId : String)
    (settings : PartialSettings) : AppState :=
  let existingSettings :=
    (st.persistentUserSettings.get userId).getD { rtmpUrl := defaultRtmpUrl }
  let updatedSettings : UserPersistentSettings :=
    { rtmpUrl := settings.rtmpUrl.getD existingSettings.rtmpUrl
      streamMode := settings.streamMode.getD existingSettings.streamMode
      faceHighlightingEnabled :=
        settings.faceHighlightingEnabled.getD existingSettings.faceHighlightingEnabled }
  let st1 : AppState :=
    { st with persistentUserSettings :=
        st.persistentUserSettings.set userId updatedSettings }
  match st1.activeUserStates.get userId with
  | none => st1
  | some us =>
    { st1 with activeUserStates :=
        st1.activeUserStates.set userId (mirrorSettings settings us) }

/-- `setRtmpUrlForUser`: reject an empty URL, merge into the persistent
entry, then overwrite the active URL and notify the glasses when a session
exists. The scheme check only logs a warning and is not modelled. -/
def setRtmpUrlForUser (st : AppState) (userId newUrl : String) : OpResult :=
  if newUrl = "" then
    { state := st, effects := [], result := some .invalidUrl }
  else
    let existingSettings :=
      (st.persistentUserSettings.get userId).getD { rtmpUrl := defaultRtmpUrl }
    let merged : UserPersistentSettings := { existingSettings with rtmpUrl := newUrl }
    let st1 : AppState :=
      { st with persistentUserSettings :=
          st.persistentUserSettings.set userId merged }
    match st1.activeUserStates.get userId with
    | some us =>
      { state :=
          { st1 with activeUserStates :=
              st1.activeUserStates.set userId { us with rtmpUrl := newUrl } }
        effects := [.showText us.sessionId ("RTMP URL updated to: " ++ newUrl)]
        result := none }
    | none => { state := st1, effects := [], result := none }

/-- `getStreamStatusForUser`: declared `RtmpStreamStatus | undefined` in TS,
hence the `Option` result; the body is
`activeUserStates.get(userId)?.streamStatus || this.getInitialStreamStatus()`
(the stored status object is always truthy). -/
def getStreamStatusForUser (st : AppState) (userId : String) (now : Nat) :
    Option RtmpStreamStatus :=
  match st.activeUserStates.get userId with
  | some us => some us.streamStatus
  | none => some (getInitialStreamStatus now)

/-- `getHlsUrlForUser`. -/
def getHlsUrlForUser (st : AppState) (userId : String) : Option String :=
  (st.activeUserStates.get userId).bind (fun us => us.hlsUrl)

/-- `getStreamModeForUser`: persistent settings first (only when the field
is defined there), then the active state, then the `hls` default. -/
def getStreamModeForUser (st : AppState) (userId : String) : StreamMode :=
  match st.persistentUserSettings.get userId with
  | some ps =>
    match ps.streamMode with
    | some m => m
    | none =>
      (((st.activeUserStates.get userId).bind (fun us => us.streamMode)).getD .hls)
  | none =>
    (((st.activeUserStates.get userId).bind (fun us => us.streamMode)).getD .hls)

/-- The `onSession` state initialization: build the session entry from the
persistent settings (`?.rtmpUrl || default`, `?.streamMode || "hls"`,
`?.faceHighlightingEnabled ?? true`) and `set` it, replacing any stale
entry. -/
def onSessionConnect (st : AppState) (userId : String) (sessionId : Nat)
    (now : Nat) : AppState :=
  let ps := st.persistentUserSettings.get userId
  let userRtmpUrl :=
    match ps with
    | some p => if p.rtmpUrl = "" then defaultRtmpUrl else p.rtmpUrl
    | none => defaultRtmpUrl
  let userStreamMode :=
    match ps with
    | some p => p.streamMode.getD .hls
    | none => StreamMode.hls
  let userFaceHighlighting :=
    match ps with
    | some p => p.faceHighlightingEnabled.getD true
    | none => true
  let freshState : UserStreamState :=
    { rtmpUrl := userRtmpUrl
      streamStatus := getInitialStreamStatus now
      sessionId := sessionId
      faceHighlightingEnabled := some userFaceHighlighting
      hlsUrl := none
      streamMode := some userStreamMode }
  { st with activeUserStates := st.activeUserStates.set userId freshState }

/-- The `onDisconnected` handler: delete only the active entry; the
persistent settings are untouched. -/
def onDisconnected (st : AppState) (userId : String) : AppState :=
  { st with activeUserStates := st.activeUserStates.del userId }

/-- The `session.streaming.onStatus` handler: re-fetch the entry from the
registry; when absent only warn and return. Otherwise store the event
stamped with the current time, show a per-status text on the closure
session, and in the `stopped` case force the status field to `stopped`.
Returns the new state and the display effects. -/
def onStatus (st : AppState) (userId : String) (closureSessionId : Nat)
    (status : RtmpStreamStatus) (now : Nat) : AppState × List Effect :=
  match st.activeUserStates.get userId with
  | none => (st, [])
  | some us =>
    let us1 := { us with streamStatus := { status with timestamp := now } }
    match status.status with
    | .initializing =>
      ({ st with activeUserStates := st.activeUserStates.set userId us1 },
       [.showText closureSessionId "Stream is initializing..."])
    | .activeK =>
      ({ st with activeUserStates := st.activeUserStates.set userId us1 },
       [.showText closureSessionId "Stream is active and running!"])
    | .errorK =>
      ({ st with activeUserStates := st.activeUserStates.set userId us1 },
       [.showText closureSessionId
          ("Stream error: " ++ status.errorDetails.getD "undefined")])
    | .stopped =>
      let us2 :=
        { us1 with streamStatus := { us1.streamStatus with status := .stopped } }
      ({ st with activeUserStates := st.activeUserStates.set userId us2 },
       [.showText closureSessionId "Stream has stopped"])

/-- `stopStreamForUser`: fail when no active entry exists, otherwise notify
the glasses and issue the transport stop command; on transport failure
store an error status and rethrow. -/
def stopStreamForUser (st : AppState) (userId : String)
    (transport : TransportReply) (now : Nat) : OpResult :=
  match st.activeUserStates.get userId with
  | none => { state := st, effects := [], result := some .noActiveSession }
  | some us =>
    let eff := [Effect.showText us.sessionId "Stopping RTMP stream via web...",
                Effect.stopStreamCmd us.sessionId]
    if transport.ok then
      { state := st, effects := eff, result := none }
    else
      let us1 :=
        { us with streamStatus :=
            { status := .errorK, errorDetails := some transport.errMsg
              timestamp := now, stats := none } }
      { state := { st with activeUserStates := st.activeUserStates.set userId us1 }
        effects := eff ++ [.showText us.sessionId
            ("Failed to stop stream: " ++ transport.errMsg)]
        result := some (.transportError transport.errMsg) }

/-- Common tail of `startStreamForUser` after the highlighting branch:
write the effective URL into the captured state object, notify the glasses,
issue the transport request-stream command, and on transport failure show
the failure text and store an error status. `detached = true` records that
a disconnect removed the registry entry during the configuration await:
the JS code keeps writing through the captured object reference, so those
writes no longer reach the registry. -/
def finishStart (st : AppState) (userId : String) (userState : UserStreamState)
    (mode : StreamMode) (highlightFaces : Option Bool) (urlToUse : String)
    (effectsSoFar : List Effect) (transport : TransportReply)
    (detached : Bool) (now : Nat) : OpResult :=
  let userState1 := { userState with rtmpUrl := urlToUse }
  let st1 :=
    if detached then st
    else { st with activeUserStates := st.activeUserStates.set userId userState1 }
  let modeText :=
    if mode = .hls then "Starting stream with face highlighting (HLS)..."
    else if highlightFaces = some true then
      "Starting stream with face highlighting (RTMP)..."
    else "Starting RTMP stream..."
  let eff := effectsSoFar ++ [Effect.showText userState1.sessionId modeText,
                              Effect.requestStream userState1.sessionId urlToUse]
  if transport.ok then
    { state := st1, effects := eff, result := none }
  else
    let userState2 :=
      { userState1 with streamStatus :=
          { status := .errorK, errorDetails := some transport.errMsg
            timestamp := now, stats := none } }
    let st2 :=
      if detached then st1
      else { st1 with activeUserStates := st1.activeUserStates.set userId userState2 }
    { state := st2
      effects := eff ++ [Effect.showText userState1.sessionId
          ("Failed to start stream: " ++ transport.errMsg)]
      result := some (.transportError transport.errMsg) }

/-- `startStreamForUser` from index.ts. The external configuration request
and the transport command are supplied as oracle replies; the flag
`disconnectDuringConfigAwait` injects the race in which `onDisconnected`
fires while the configuration `fetch` is awaited, removing the registry
entry mid-flight (the continuation then runs against the captured, now
detached, state object). -/
def startStreamForUser (st : AppState) (userId : String)
    (rtmpUrl : Option String) (highlightFaces : Option Bool)
    (streamModeArg : Option StreamMode) (coord : CoordinatorReply)
    (transport : TransportReply) (disconnectDuringConfigAwait : Bool)
    (now : Nat) : OpResult :=
  match st.activeUserStates.get userId with
  | none => { state := st, effects := [], result := some .noActiveSession }
  | some userState0 =>
    let mode := streamModeArg.getD .hls
    let userState1 := { userState0 with streamMode := some mode }
    let stA : AppState :=
      { st with activeUserStates := st.activeUserStates.set userId userState1 }
    if mode = .simulation then
      let userState2 := { userState1 with faceHighlightingEnabled := highlightFaces }
      let stB : AppState :=
        { stA with activeUserStates := stA.activeUserStates.set userId userState2 }
      let stC := updatePersistentSettingsForUser stB userId
        { rtmpUrl := none, streamMode := some (some mode)
          faceHighlightingEnabled := some highlightFaces }
      { state := stC, effects := [], result := none }
    else
      let highlight := if mode = .hls then some true else highlightFaces
      let urlToUse := jsOr3 rtmpUrl userState1.rtmpUrl defaultRtmpUrl
      let userState2 := { userState1 with faceHighlightingEnabled := highlight }
      let stB : AppState :=
        { stA with activeUserStates := stA.activeUserStates.set userId userState2 }
      let stC := updatePersistentSettingsForUser stB userId
        { rtmpUrl := none, streamMode := some (some mode)
          faceHighlightingEnabled := some highlight }
      if highlight = some true then
        let key := streamKey userId
        let cfg := Effect.coordinatorConfig key (mode = .hls)
          (if mode = .hls then none else some urlToUse)
        let stD :=
          if disconnectDuringConfigAwait then
            { stC with activeUserStates := stC.activeUserStates.del userId }
          else stC
        if coord.ok then
          let userState3 :=
            if jsTruthyOptStr coord.outputUrl = true ∧ mode = .hls then
              { userState2 with hlsUrl := coord.outputUrl }
            else userState2
          let effectiveUrl := "rtmp://stream.okgodoit.com/live/" ++ key
          finishStart stD userId userState3 mode highlight effectiveUrl [cfg]
            transport disconnectDuringConfigAwait now
        else
          { state := stD, effects := [cfg]
            result := some (.highlightConfigError coord.statusText) }
      else
        if mode = .hls then
          { state := stC, effects := [], result := some .unsupportedModeCombination }
        else
          finishStart stC userId userState2 mode highlight urlToUse []
            transport false now

/-- The `/api/stop-stream` route of the unnamed webview route file: when the
resolved stream mode is `simulation` it replies success at once without
calling `stopStreamForUser`; otherwise it delegates. (The variant in
src/src/webview.ts has no simulation shortcut and always delegates.) -/
def apiStopStream (st : AppState) (userId : String)
    (transport : TransportReply) (now : Nat) : OpResult :=
  if getStreamModeForUser st userId = .simulation then
    { state := st, effects := [], result := none }
  else
    stopStreamForUser st userId transport now

/-- C8: for every UserId, after a SessionState is created at connect and
then removed at disconnect, a registry get returns absent; the persistent
settings map (hence every PersistentSettings entry) is unchanged by the
removal; and removing an already-absent key is a no-op, not an error. -/
theorem claimC8_connect_disconnect_roundtrip (st : AppState) (userId : String)
    (sessionId now : Nat) :
    (onDisconnected (onSessionConnect st userId sessionId now) userId).activeUserStates.get userId = none
    ∧ (onDisconnected (onSessionConnect st userId sessionId now) userId).persistentUserSettings
        = (onSessionConnect st userId sessionId now).persistentUserSettings
    ∧ (onDisconnected st userId).persistentUserSettings = st.persistentUserSettings
    ∧ (st.activeUserStates.get userId = none → onDisconnected st userId = st) := by
  refine ⟨?_, rfl, rfl, ?_⟩
  · simp [onDisconnected, onSessionConnect, StoreMap.get_del_self]
  · intro h
    simp [onDisconnected, StoreMap.del_of_get_none _ _ h]

/-- C8 witness at a concrete store. -/
theorem claimC8_witness :
    (onDisconnected (onSessionConnect ⟨[], []⟩ "u1" 3 7) "u1").activeUserStates.get "u1" = none
    ∧ (onDisconnected (onSessionConnect ⟨[], []⟩ "u1" 3 7) "u1").persistentUserSettings
        = (onSessionConnect ⟨[], []⟩ "u1" 3 7).persistentUserSettings
    ∧ (onDisconnected (⟨[], []⟩ : AppState) "u1").persistentUserSettings
        = (⟨[], []⟩ : AppState).persistentUserSettings
    ∧ onDisconnected (⟨[], []⟩ : AppState) "u1" = (⟨[], []⟩ : AppState) :=
  ⟨(claimC8_connect_disconnect_roundtrip ⟨[], []⟩ "u1" 3 7).1,
   (claimC8_connect_disconnect_roundtrip ⟨[], []⟩ "u1" 3 7).2.1,
   (claimC8_connect_disconnect_roundtrip ⟨[], []⟩ "u1" 3 7).2.2.1,
   (claimC8_connect_disconnect_roundtrip ⟨[], []⟩ "u1" 3 7).2.2.2 (by decide)⟩

/-- C9: `getStreamStatusForUser` always returns a present value despite its
optional declared type, and for a user with no SessionState it returns the
freshly built default whose status field is `stopped`. -/
theorem claimC9_streamStatus_total (st : AppState) (userId : String) (now : Nat) :
    (getStreamStatusForUser st userId now).isSome = true
    ∧ (st.activeUserStates.get userId = none →
        getStreamStatusForUser st userId now = some (getInitialStreamStatus now))
    ∧ (getInitialStreamStatus now).status = .stopped := by
  refine ⟨?_, ?_, rfl⟩
  · unfold getStreamStatusForUser
    cases st.activeUserStates.get userId <;> simp
  · intro h
    simp [getStreamStatusForUser, h]

/-- C9 witness at a concrete store with no entry. -/
theorem claimC9_witness :
    ((getStreamStatusForUser ⟨[], []⟩ "u1" 4).isSome = true)
    ∧ getStreamStatusForUser ⟨[], []⟩ "u1" 4 = some (getInitialStreamStatus 4)
    ∧ (getInitialStreamStatus 4).status = .stopped :=
  ⟨(claimC9_streamStatus_total ⟨[], []⟩ "u1" 4).1,
   (claimC9_streamStatus_total ⟨[], []⟩ "u1" 4).2.1 (by decide),
   (claimC9_streamStatus_total ⟨[], []⟩ "u1" 4).2.2⟩

/-- C7: a status push event for a UserId with no SessionState is discarded:
the state (both stores) is returned unchanged, no display effect is
produced, and the total handler raises no error. -/
theorem claimC7_status_absent_discarded (st : AppState) (userId : String)
    (sid : Nat) (ev : RtmpStreamStatus) (now : Nat)
    (h : st.activeUserStates.get userId = none) :
    onStatus st userId sid ev now = (st, []) := by
  simp [onStatus, h]

/-- C7 witness: a stopped event for an unknown user leaves the empty store
untouched. -/
theorem claimC7_witness :
    ((⟨[], []⟩ : AppState).activeUserStates.get "ghost" = none)
    ∧ onStatus ⟨[], []⟩ "ghost" 9 { status := .activeK } 11 = (⟨[], []⟩, []) :=
  ⟨by decide, claimC7_status_absent_discarded ⟨[], []⟩ "ghost" 9 { status := .activeK } 11 (by decide)⟩

/-- C6: a push event whose status is `stopped`, delivered for a user with a
SessionState, stores exactly the event stamped with the current time, and
the stored status field is `stopped` whatever the other event fields are. -/
theorem claimC6_status_stopped_canonical (st : AppState) (userId : String)
    (sid : Nat) (ev : RtmpStreamStatus) (now : Nat) (us : UserStreamState)
    (hus : st.activeUserStates.get userId = some us)
    (hev : ev.status = .stopped) :
    ∃ us', (onStatus st userId sid ev now).1.activeUserStates.get userId = some us'
      ∧ us'.streamStatus = { ev with timestamp := now }
      ∧ us'.streamStatus.status = .stopped := by
  unfold onStatus
  rw [hus, hev]
  refine ⟨_, StoreMap.get_set_self _ _ _, ?_, rfl⟩
  simp [hev]

/-- C6 witness: a stopped event carrying spurious error details is stored
verbatim with the fresh timestamp and a `stopped` status. -/
theorem claimC6_witness :
    ∃ us', (onStatus
        ⟨[("u1", ⟨"rtmp://x", ⟨.activeK, none, 0, none⟩, 2, some true, none, some .hls⟩)], []⟩
        "u1" 2 { status := .stopped, errorDetails := some "junk", timestamp := 0, stats := some "s" } 42).1.activeUserStates.get "u1" = some us'
      ∧ us'.streamStatus = { status := .stopped, errorDetails := some "junk", timestamp := 42, stats := some "s" }
      ∧ us'.streamStatus.status = .stopped :=
  claimC6_status_stopped_canonical
    ⟨[("u1", ⟨"rtmp://x", ⟨.activeK, none, 0, none⟩, 2, some true, none, some .hls⟩)], []⟩
    "u1" 2 { status := .stopped, errorDetails := some "junk", timestamp := 0, stats := some "s" } 42
    ⟨"rtmp://x", ⟨.activeK, none, 0, none⟩, 2, some true, none, some .hls⟩ (by decide) rfl

theorem string_data_append (a b : String) : (a ++ b).data = a.data ++ b.data := by
  cases a; cases b; rfl

theorem string_eq_of_data_eq (a b : String) (h : a.data = b.data) : a = b := by
  cases a; cases b; exact congrArg String.mk h

theorem keyOfChars_injOn (l₁ : List Char) :
    ∀ l₂ : List Char, '_' ∉ l₁ → '_' ∉ l₂ →
      keyOfChars l₁ = keyOfChars l₂ → l₁ = l₂ := by
  induction l₁ with
  | nil =>
    intro l₂ _ _ h
    cases l₂ with
    | nil => rfl
    | cons d ds => simp [keyOfChars] at h
  | cons c cs ih =>
    intro l₂ h₁ h₂ h
    cases l₂ with
    | nil => simp [keyOfChars] at h
    | cons d ds =>
      simp only [keyOfChars, List.map_cons, List.cons.injEq] at h
      obtain ⟨hcd, hrest⟩ := h
      have hc : c ≠ '_' := by simp at h₁; exact fun hh => h₁.1 hh.symm
      have hd : d ≠ '_' := by simp at h₂; exact fun hh => h₂.1 hh.symm
      have hcs : '_' ∉ cs := by simp at h₁; exact h₁.2
      have hds : '_' ∉ ds := by simp at h₂; exact h₂.2
      have hcd' : c = d := by
        by_cases hca : c = '@' <;> by_cases hda : d = '@' <;>
          simp [hca, hda] at hcd <;> first
          | (exact hca.trans hda.symm)
          | (exact absurd hcd.symm hd)
          | (exact absurd hcd hc)
          | exact hcd
      exact hcd' ▸ congrArg (c :: ·) (ih ds hcs hds hrest)

/-- C3 counterexample: two distinct UserIds whose derived stream keys
coincide, because the `@` to `_` rewrite is not injective. -/
theorem claimC3_counterexample :
    streamKey "a@b" = streamKey "a_b" ∧ "a@b" ≠ "a_b" := by decide

/-- C3 amended: the key derivation is deterministic and identical between
the orchestrator and the web routes, and it is collision-free on UserIds
that contain no underscore (the rewrite only collides an `@` with a
literal `_`). -/
theorem claimC3_streamKey_deterministic (u : String) :
    webStreamKey u = streamKey u
    ∧ (∀ v : String, '_' ∉ u.data → '_' ∉ v.data →
        streamKey u = streamKey v → u = v) := by
  refine ⟨rfl, ?_⟩
  intro v hu hv h
  have hdata : (streamKey u).data = (streamKey v).data := congrArg String.data h
  simp only [streamKey, string_data_append] at hdata
  have hkeys : keyOfChars u.data = keyOfChars v.data :=
    List.append_cancel_left hdata
  exact string_eq_of_data_eq u v (keyOfChars_injOn u.data v.data hu hv hkeys)

/-- C3 witness: agreement of the two derivation sites on a userId with an
`@`, and injectivity applied at concrete underscore-free inputs. -/
theorem claimC3_witness :
    webStreamKey "x@y" = streamKey "x@y" ∧ "a@b" = "a@b" :=
  ⟨(claimC3_streamKey_deterministic "x@y").1,
   (claimC3_streamKey_deterministic "a@b").2 "a@b" (by decide) (by decide) rfl⟩

/-- C2 counterexample: a user whose persistent stream mode is `simulation`
but who has no SessionState (connected, chose simulation, disconnected).
The stop route replies success instead of failing with `NoActiveSession`,
because the simulation shortcut runs before the session-existence check. -/
theorem claimC2_counterexample :
    ((⟨[], [("u1", ⟨"rtmp://x", some .simulation, some true⟩)]⟩ : AppState).activeUserStates.get "u1" = none)
    ∧ (apiStopStream ⟨[], [("u1", ⟨"rtmp://x", some .simulation, some true⟩)]⟩ "u1" ⟨true, ""⟩ 7).result = none := by
  decide

/-- C2 amended: if the resolved stream mode is `simulation`, the stop route
succeeds at once with no transport stop command and no display
notification — whether or not a SessionState exists; when no SessionState
exists and the resolved mode is not `simulation`, StopStream fails with
`NoActiveSession` and changes nothing. -/
theorem claimC2_stopStream (st : AppState) (userId : String)
    (tr : TransportReply) (now : Nat) :
    (getStreamModeForUser st userId = .simulation →
      apiStopStream st userId tr now = { state := st, effects := [], result := none })
    ∧ (getStreamModeForUser st userId ≠ .simulation →
      st.activeUserStates.get userId = none →
      apiStopStream st userId tr now
        = { state := st, effects := [], result := some .noActiveSession }) := by
  constructor
  · intro h
    simp [apiStopStream, h]
  · intro h habs
    simp [apiStopStream, h, stopStreamForUser, habs]

/-- C2 witness: a connected simulation user stops with no transport call,
and a disconnected hls user gets `NoActiveSession`. -/
theorem claimC2_witness :
    (apiStopStream
        ⟨[("u1", ⟨"rtmp://x", ⟨.stopped, none, 0, none⟩, 1, some true, none, some .simulation⟩)],
         [("u1", ⟨"rtmp://x", some .simulation, some true⟩)]⟩ "u1" ⟨true, ""⟩ 7
      = { state := ⟨[("u1", ⟨"rtmp://x", ⟨.stopped, none, 0, none⟩, 1, some true, none, some .simulation⟩)],
                    [("u1", ⟨"rtmp://x", some .simulation, some true⟩)]⟩
          effects := [], result := none })
    ∧ (apiStopStream ⟨[], [("u2", ⟨"rtmp://y", some .hls, some true⟩)]⟩ "u2" ⟨true, ""⟩ 7
      = { state := ⟨[], [("u2", ⟨"rtmp://y", some .hls, some true⟩)]⟩
          effects := [], result := some .noActiveSession }) :=
  ⟨(claimC2_stopStream _ "u1" ⟨true, ""⟩ 7).1 (by decide),
   (claimC2_stopStream _ "u2" ⟨true, ""⟩ 7).2 (by decide) (by decide)⟩

/-- C5: StartStream in simulation mode for a connected user issues no
configuration call, no transport command and no display text, succeeds,
records the requested flag and the mode in the session state and in the
persistent settings, and leaves the stream status (and the URL fields)
unchanged. -/
theorem claimC5_start_simulation (st : AppState) (userId : String)
    (url : Option String) (hf : Option Bool) (coord : CoordinatorReply)
    (tr : TransportReply) (disc : Bool) (now : Nat) (us : UserStreamState)
    (hus : st.activeUserStates.get userId = some us) :
    (startStreamForUser st userId url hf (some .simulation) coord tr disc now).effects = []
    ∧ (startStreamForUser st userId url hf (some .simulation) coord tr disc now).result = none
    ∧ (∃ us', (startStreamForUser st userId url hf (some .simulation) coord tr disc now).state.activeUserStates.get userId = some us'
        ∧ us'.streamMode = some .simulation
        ∧ us'.faceHighlightingEnabled = hf
        ∧ us'.streamStatus = us.streamStatus
        ∧ us'.rtmpUrl = us.rtmpUrl ∧ us'.hlsUrl = us.hlsUrl)
    ∧ (∃ ps, (startStreamForUser st userId url hf (some .simulation) coord tr disc now).state.persistentUserSettings.get userId = some ps
        ∧ ps.streamMode = some .simulation ∧ ps.faceHighlightingEnabled = hf) := by
  cases hf with
  | none =>
    simp [startStreamForUser, hus, updatePersistentSettingsForUser, mirrorSettings,
      StoreMap.get_set_self]
  | some b =>
    simp [startStreamForUser, hus, updatePersistentSettingsForUser, mirrorSettings,
      StoreMap.get_set_self]

/-- C5 witness: a concrete simulation start leaves the status untouched and
stores the requested flag and mode. -/
theorem claimC5_witness :
    (startStreamForUser
        ⟨[("u3", ⟨"rtmp://orig", ⟨.activeK, none, 3, none⟩, 4, some false, none, some .rtmp⟩)], []⟩
        "u3" none (some true) (some .simulation) ⟨false, "x", none⟩ ⟨false, "y"⟩ false 8).effects = []
    ∧ (startStreamForUser
        ⟨[("u3", ⟨"rtmp://orig", ⟨.activeK, none, 3, none⟩, 4, some false, none, some .rtmp⟩)], []⟩
        "u3" none (some true) (some .simulation) ⟨false, "x", none⟩ ⟨false, "y"⟩ false 8).result = none
    ∧ (∃ us', (startStreamForUser
        ⟨[("u3", ⟨"rtmp://orig", ⟨.activeK, none, 3, none⟩, 4, some false, none, some .rtmp⟩)], []⟩
        "u3" none (some true) (some .simulation) ⟨false, "x", none⟩ ⟨false, "y"⟩ false 8).state.activeUserStates.get "u3" = some us'
        ∧ us'.streamMode = some .simulation
        ∧ us'.faceHighlightingEnabled = some true
        ∧ us'.streamStatus = (⟨.activeK, none, 3, none⟩ : RtmpStreamStatus)
        ∧ us'.rtmpUrl = "rtmp://orig" ∧ us'.hlsUrl = none)
    ∧ (∃ ps, (startStreamForUser
        ⟨[("u3", ⟨"rtmp://orig", ⟨.activeK, none, 3, none⟩, 4, some false, none, some .rtmp⟩)], []⟩
        "u3" none (some true) (some .simulation) ⟨false, "x", none⟩ ⟨false, "y"⟩ false 8).state.persistentUserSettings.get "u3" = some ps
        ∧ ps.streamMode = some .simulation ∧ ps.faceHighlightingEnabled = some true) :=
  claimC5_start_simulation
    ⟨[("u3", ⟨"rtmp://orig", ⟨.activeK, none, 3, none⟩, 4, some false, none, some .rtmp⟩)], []⟩
    "u3" none (some true) ⟨false, "x", none⟩ ⟨false, "y"⟩ false 8
    ⟨"rtmp://orig", ⟨.activeK, none, 3, none⟩, 4, some false, none, some .rtmp⟩ (by decide)

/-- C4: StartStream with mode hls on a connected user stores
`faceHighlightingEnabled = true` in the session state and in the merged
persistent entry whatever the requested flag was, and the call is never
rejected for the mode/flag combination (it can only fail through the
external configuration or transport calls, never with the
mode-combination error or `NoActiveSession`). -/
theorem claimC4_hls_forces_highlighting (st : AppState) (userId : String)
    (url : Option String) (hf : Option Bool) (coord : CoordinatorReply)
    (tr : TransportReply) (now : Nat) (us : UserStreamState)
    (hus : st.activeUserStates.get userId = some us) :
    (∃ us', (startStreamForUser st userId url hf (some .hls) coord tr false now).state.activeUserStates.get userId = some us'
        ∧ us'.faceHighlightingEnabled = some true)
    ∧ (∃ ps, (startStreamForUser st userId url hf (some .hls) coord tr false now).state.persistentUserSettings.get userId = some ps
        ∧ ps.faceHighlightingEnabled = some true)
    ∧ (startStreamForUser st userId url hf (some .hls) coord tr false now).result ≠ some .unsupportedModeCombination
    ∧ (startStreamForUser st userId url hf (some .hls) coord tr false now).result ≠ some .noActiveSession := by
  by_cases hok : coord.ok <;> by_cases htr : tr.ok <;>
    by_cases hjs : jsTruthyOptStr coord.outputUrl = true <;>
    simp [startStreamForUser, hus, updatePersistentSettingsForUser, mirrorSettings,
      finishStart, StoreMap.get_set_self, hok, htr, hjs]

/-- C4 witness: an hls start requested with highlighting explicitly false
still stores and persists the flag as true. -/
theorem claimC4_witness :
    (∃ us', (startStreamForUser
        ⟨[("u2", ⟨"rtmp://dest", ⟨.stopped, none, 0, none⟩, 5, some false, none, some .rtmp⟩)], []⟩
        "u2" none (some false) (some .hls) ⟨true, "", some "https://h/u2.m3u8"⟩ ⟨true, ""⟩ false 6).state.activeUserStates.get "u2" = some us'
        ∧ us'.faceHighlightingEnabled = some true)
    ∧ (∃ ps, (startStreamForUser
        ⟨[("u2", ⟨"rtmp://dest", ⟨.stopped, none, 0, none⟩, 5, some false, none, some .rtmp⟩)], []⟩
        "u2" none (some false) (some .hls) ⟨true, "", some "https://h/u2.m3u8"⟩ ⟨true, ""⟩ false 6).state.persistentUserSettings.get "u2" = some ps
        ∧ ps.faceHighlightingEnabled = some true)
    ∧ (startStreamForUser
        ⟨[("u2", ⟨"rtmp://dest", ⟨.stopped, none, 0, none⟩, 5, some false, none, some .rtmp⟩)], []⟩
        "u2" none (some false) (some .hls) ⟨true, "", some "https://h/u2.m3u8"⟩ ⟨true, ""⟩ false 6).result ≠ some .unsupportedModeCombination
    ∧ (startStreamForUser
        ⟨[("u2", ⟨"rtmp://dest", ⟨.stopped, none, 0, none⟩, 5, some false, none, some .rtmp⟩)], []⟩
        "u2" none (some false) (some .hls) ⟨true, "", some "https://h/u2.m3u8"⟩ ⟨true, ""⟩ false 6).result ≠ some .noActiveSession :=
  claimC4_hls_forces_highlighting
    ⟨[("u2", ⟨"rtmp://dest", ⟨.stopped, none, 0, none⟩, 5, some false, none, some .rtmp⟩)], []⟩
    "u2" none (some false) ⟨true, "", some "https://h/u2.m3u8"⟩ ⟨true, ""⟩ 6
    ⟨"rtmp://dest", ⟨.stopped, none, 0, none⟩, 5, some false, none, some .rtmp⟩ (by decide)

/-- C1 counterexample: user u4 is connected and StartStream (hls mode,
highlighting on) is in flight when the disconnect removes the entry during
the configuration await. Contrary to the claim, the call does not abort
with `NoActiveSession` (it returns success) and the transport
request-stream command IS issued, on the captured session handle. -/
theorem claimC1_counterexample :
    (startStreamForUser
        ⟨[("u4", ⟨"rtmp://dest/x", ⟨.stopped, none, 0, none⟩, 1, some true, none, some .hls⟩)], []⟩
        "u4" none (some true) (some .hls) ⟨true, "", some "https://svc/hls/u4.m3u8"⟩ ⟨true, ""⟩ true 5).result = none
    ∧ Effect.requestStream 1 "rtmp://stream.okgodoit.com/live/user_u4"
        ∈ (startStreamForUser
        ⟨[("u4", ⟨"rtmp://dest/x", ⟨.stopped, none, 0, none⟩, 1, some true, none, some .hls⟩)], []⟩
        "u4" none (some true) (some .hls) ⟨true, "", some "https://svc/hls/u4.m3u8"⟩ ⟨true, ""⟩ true 5).effects := by
  decide

/-- C1 amended: when the SessionState is removed by a disconnect during the
HighlightCoordinator await (non-simulation mode, highlighting enabled),
the registry view is indeed untouched by the continuation — the URL write
does not apply (the registry still has no entry for the user) and every
later status push for the user is discarded without a write — but the
continuation does not abort with `NoActiveSession`: with the external
calls succeeding it returns success and still issues the transport
request-stream command through the captured session handle. -/
theorem claimC1_disconnect_mid_config (st : AppState) (userId : String)
    (url : Option String) (hf : Option Bool) (mode : StreamMode)
    (coord : CoordinatorReply) (tr : TransportReply) (now : Nat) (us : UserStreamState)
    (hus : st.activeUserStates.get userId = some us)
    (hmode : mode ≠ .simulation)
    (hhl : (if mode = .hls then some true else hf) = some true)
    (hok : coord.ok = true) (htr : tr.ok = true) :
    (startStreamForUser st userId url hf (some mode) coord tr true now).result = none
    ∧ (startStreamForUser st userId url hf (some mode) coord tr true now).state.activeUserStates.get userId = none
    ∧ Effect.requestStream us.sessionId ("rtmp://stream.okgodoit.com/live/" ++ streamKey userId)
        ∈ (startStreamForUser st userId url hf (some mode) coord tr true now).effects
    ∧ (∀ (ev : RtmpStreamStatus) (sid2 now2 : Nat),
        onStatus (startStreamForUser st userId url hf (some mode) coord tr true now).state userId sid2 ev now2
          = ((startStreamForUser st userId url hf (some mode) coord tr true now).state, [])) := by
  have hbody :
      (startStreamForUser st userId url hf (some mode) coord tr true now).result = none
      ∧ (startStreamForUser st userId url hf (some mode) coord tr true now).state.activeUserStates.get userId = none
      ∧ Effect.requestStream us.sessionId ("rtmp://stream.okgodoit.com/live/" ++ streamKey userId)
          ∈ (startStreamForUser st userId url hf (some mode) coord tr true now).effects := by
    cases mode with
    | simulation => exact absurd rfl hmode
    | hls =>
      by_cases hjs : jsTruthyOptStr coord.outputUrl = true <;>
        simp [startStreamForUser, hus, updatePersistentSettingsForUser, mirrorSettings,
          finishStart, StoreMap.get_del_self, StoreMap.get_set_self, hok, htr, hjs]
    | rtmp =>
      simp at hhl
      simp [startStreamForUser, hus, updatePersistentSettingsForUser, mirrorSettings,
        finishStart, StoreMap.get_del_self, StoreMap.get_set_self, hok, htr, hhl]
  refine ⟨hbody.1, hbody.2.1, hbody.2.2, ?_⟩
  intro ev sid2 now2
  simp [onStatus, hbody.2.1]

/-- C1 witness: the amended behaviour at a concrete mid-flight disconnect. -/
theorem claimC1_witness :
    (startStreamForUser
        ⟨[("u5", ⟨"rtmp://dest/y", ⟨.stopped, none, 0, none⟩, 2, some true, none, some .hls⟩)], []⟩
        "u5" none none (some .hls) ⟨true, "", some "https://svc/hls/u5.m3u8"⟩ ⟨true, ""⟩ true 5).result = none
    ∧ (startStreamForUser
        ⟨[("u5", ⟨"rtmp://dest/y", ⟨.stopped, none, 0, none⟩, 2, some true, none, some .hls⟩)], []⟩
        "u5" none none (some .hls) ⟨true, "", some "https://svc/hls/u5.m3u8"⟩ ⟨true, ""⟩ true 5).state.activeUserStates.get "u5" = none
    ∧ Effect.requestStream 2 ("rtmp://stream.okgodoit.com/live/" ++ streamKey "u5")
        ∈ (startStreamForUser
        ⟨[("u5", ⟨"rtmp://dest/y", ⟨.stopped, none, 0, none⟩, 2, some true, none, some .hls⟩)], []⟩
        "u5" none none (some .hls) ⟨true, "", some "https://svc/hls/u5.m3u8"⟩ ⟨true, ""⟩ true 5).effects
    ∧ onStatus (startStreamForUser
        ⟨[("u5", ⟨"rtmp://dest/y", ⟨.stopped, none, 0, none⟩, 2, some true, none, some .hls⟩)], []⟩
        "u5" none none (some .hls) ⟨true, "", some "https://svc/hls/u5.m3u8"⟩ ⟨true, ""⟩ true 5).state "u5" 2 ⟨.activeK, none, 0, none⟩ 9
        = ((startStreamForUser
        ⟨[("u5", ⟨"rtmp://dest/y", ⟨.stopped, none, 0, none⟩, 2, some true, none, some .hls⟩)], []⟩
        "u5" none none (some .hls) ⟨true, "", some "https://svc/hls/u5.m3u8"⟩ ⟨true, ""⟩ true 5).state, []) :=
  ⟨(claimC1_disconnect_mid_config
      ⟨[("u5", ⟨"rtmp://dest/y", ⟨.stopped, none, 0, none⟩, 2, some true, none, some .hls⟩)], []⟩
      "u5" none none .hls ⟨true, "", some "https://svc/hls/u5.m3u8"⟩ ⟨true, ""⟩ 5
      ⟨"rtmp://dest/y", ⟨.stopped, none, 0, none⟩, 2, some true, none, some .hls⟩
      (by decide) (by decide) rfl rfl rfl).1,
   (claimC1_disconnect_mid_config
      ⟨[("u5", ⟨"rtmp://dest/y", ⟨.stopped, none, 0, none⟩, 2, some true, none, some .hls⟩)], []⟩
      "u5" none none .hls ⟨true, "", some "https://svc/hls/u5.m3u8"⟩ ⟨true, ""⟩ 5
      ⟨"rtmp://dest/y", ⟨.stopped, none, 0, none⟩, 2, some true, none, some .hls⟩
      (by decide) (by decide) rfl rfl rfl).2.1,
   (claimC1_disconnect_mid_config
      ⟨[("u5", ⟨"rtmp://dest/y", ⟨.stopped, none, 0, none⟩, 2, some true, none, some .hls⟩)], []⟩
      "u5" none none .hls ⟨true, "", some "https://svc/hls/u5.m3u8"⟩ ⟨true, ""⟩ 5
      ⟨"rtmp://dest/y", ⟨.stopped, none, 0, none⟩, 2, some true, none, some .hls⟩
      (by decide) (by decide) rfl rfl rfl).2.2.1,
   (claimC1_disconnect_mid_config
      ⟨[("u5", ⟨"rtmp://dest/y", ⟨.stopped, none, 0, none⟩, 2, some true, none, some .hls⟩)], []⟩
      "u5" none none .hls ⟨true, "", some "https://svc/hls/u5.m3u8"⟩ ⟨true, ""⟩ 5
      ⟨"rtmp://dest/y", ⟨.stopped, none, 0, none⟩, 2, some true, none, some .hls⟩
      (by decide) (by decide) rfl rfl rfl).2.2.2 ⟨.activeK, none, 0, none⟩ 2 9⟩

theorem getHls_set_eq (m : StoreMap UserStreamState) (k uid : String) (v : UserStreamState) :
    ((m.set k v).get uid).bind (fun w => w.hlsUrl)
      = if uid = k then v.hlsUrl else (m.get uid).bind (fun w => w.hlsUrl) := by
  by_cases hq : uid = k
  · subst hq
    simp [StoreMap.get_set_self]
  · simp [hq, StoreMap.get_set_ne _ _ _ _ hq]

theorem mirrorSettings_hlsUrl (s : PartialSettings) (us : UserStreamState) :
    (mirrorSettings s us).hlsUrl = us.hlsUrl := by
  unfold mirrorSettings
  repeat' split
  all_goals rfl

theorem getHls_update (st : AppState) (u uid : String) (ps : PartialSettings) :
    getHlsUrlForUser (updatePersistentSettingsForUser st u ps) uid
      = getHlsUrlForUser st uid := by
  unfold updatePersistentSettingsForUser
  cases h : st.activeUserStates.get u with
  | none => simp [h, getHlsUrlForUser]
  | some us =>
    by_cases hq : uid = u <;>
      simp [h, hq, getHlsUrlForUser, getHls_set_eq, mirrorSettings_hlsUrl]

theorem getHls_stop (st : AppState) (u uid : String) (tr : TransportReply) (now : Nat) :
    getHlsUrlForUser (stopStreamForUser st u tr now).state uid = getHlsUrlForUser st uid := by
  unfold stopStreamForUser
  cases h : st.activeUserStates.get u with
  | none => simp [h]
  | some us =>
    by_cases hq : uid = u <;> by_cases htr : tr.ok <;>
      simp [h, hq, htr, getHlsUrlForUser, getHls_set_eq]

theorem getHls_apiStop (st : AppState) (u uid : String) (tr : TransportReply) (now : Nat) :
    getHlsUrlForUser (apiStopStream st u tr now).state uid = getHlsUrlForUser st uid := by
  unfold apiStopStream
  by_cases hm : getStreamModeForUser st u = .simulation
  · simp [hm]
  · simp only [hm, if_false, Bool.false_eq_true]
    exact getHls_stop st u uid tr now

theorem getHls_setUrl (st : AppState) (u uid newUrl : String) :
    getHlsUrlForUser (setRtmpUrlForUser st u newUrl).state uid = getHlsUrlForUser st uid := by
  unfold setRtmpUrlForUser
  by_cases hz : newUrl = ""
  · simp [hz]
  · cases h : st.activeUserStates.get u with
    | none => simp [h, hz, getHlsUrlForUser]
    | some us =>
      by_cases hq : uid = u <;>
        simp [h, hq, hz, getHlsUrlForUser, getHls_set_eq]

theorem getHls_onStatus (st : AppState) (u uid : String) (sid : Nat)
    (ev : RtmpStreamStatus) (now : Nat) :
    getHlsUrlForUser (onStatus st u sid ev now).1 uid = getHlsUrlForUser st uid := by
  unfold onStatus
  cases h : st.activeUserStates.get u with
  | none => simp [h]
  | some us =>
    cases hev : ev.status <;> by_cases hq : uid = u <;>
      simp [h, hq, hev, getHlsUrlForUser, getHls_set_eq]

theorem getHls_start_nonhls (st : AppState) (u uid : String)
    (url : Option String) (hf : Option Bool) (mode : StreamMode)
    (coord : CoordinatorReply) (tr : TransportReply) (now : Nat)
    (hmode : mode ≠ .hls) :
    getHlsUrlForUser (startStreamForUser st u url hf (some mode) coord tr false now).state uid
      = getHlsUrlForUser st uid := by
  unfold startStreamForUser
  cases h : st.activeUserStates.get u with
  | none => simp [h]
  | some us =>
    cases mode with
    | hls => exact absurd rfl hmode
    | simulation =>
      by_cases hq : uid = u <;>
        simp [h, hq, finishStart, updatePersistentSettingsForUser, StoreMap.get_set_self,
          getHlsUrlForUser, getHls_set_eq, mirrorSettings_hlsUrl]
    | rtmp =>
      by_cases hq : uid = u <;> by_cases hhl : hf = some true <;>
        by_cases hok : coord.ok <;> by_cases htr : tr.ok <;>
        simp [h, hq, hhl, hok, htr, finishStart, updatePersistentSettingsForUser,
          StoreMap.get_set_self, getHlsUrlForUser, getHls_set_eq, mirrorSettings_hlsUrl]

theorem getHls_start_hls_sets (st : AppState) (u : String)
    (url : Option String) (hf : Option Bool)
    (coord : CoordinatorReply) (tr : TransportReply) (now : Nat)
    (us : UserStreamState)
    (hus : st.activeUserStates.get u = some us)
    (hok : coord.ok = true) (hjs : jsTruthyOptStr coord.outputUrl = true)
    (htr : tr.ok = true) :
    getHlsUrlForUser (startStreamForUser st u url hf (some .hls) coord tr false now).state u
      = coord.outputUrl := by
  simp [startStreamForUser, hus, hok, hjs, htr, finishStart,
    updatePersistentSettingsForUser, StoreMap.get_set_self, getHlsUrlForUser, getHls_set_eq]

/-- C10: the stored `hlsUrl` is never cleared by any operation short of a
disconnect: StopStream (direct and via the web route), StartStream in a
mode other than hls, persistent-settings updates, RTMP-URL updates and
status push events all leave `getHlsUrlForUser` unchanged for every user;
and a successful hls-mode StartStream is what sets it, so the getter can
keep reporting a playback URL for a stream that has since stopped or
changed mode. -/
theorem claimC10_hlsUrl_persistent (st : AppState) (u uid : String)
    (url : Option String) (hf : Option Bool) (mode : StreamMode)
    (coord : CoordinatorReply) (tr : TransportReply) (ps : PartialSettings)
    (newUrl : String) (sid : Nat) (ev : RtmpStreamStatus) (now : Nat)
    (hmode : mode ≠ .hls) :
    getHlsUrlForUser (stopStreamForUser st u tr now).state uid = getHlsUrlForUser st uid
    ∧ getHlsUrlForUser (apiStopStream st u tr now).state uid = getHlsUrlForUser st uid
    ∧ getHlsUrlForUser (startStreamForUser st u url hf (some mode) coord tr false now).state uid
        = getHlsUrlForUser st uid
    ∧ getHlsUrlForUser (updatePersistentSettingsForUser st u ps) uid = getHlsUrlForUser st uid
    ∧ getHlsUrlForUser (setRtmpUrlForUser st u newUrl).state uid = getHlsUrlForUser st uid
    ∧ getHlsUrlForUser (onStatus st u sid ev now).1 uid = getHlsUrlForUser st uid
    ∧ (∀ us : UserStreamState, st.activeUserStates.get u = some us →
        coord.ok = true → jsTruthyOptStr coord.outputUrl = true → tr.ok = true →
        getHlsUrlForUser (startStreamForUser st u url hf (some .hls) coord tr false now).state u
          = coord.outputUrl) :=
  ⟨getHls_stop st u uid tr now,
   getHls_apiStop st u uid tr now,
   getHls_start_nonhls st u uid url hf mode coord tr now hmode,
   getHls_update st u uid ps,
   getHls_setUrl st u uid newUrl,
   getHls_onStatus st u uid sid ev now,
   fun us hus hok hjs htr => getHls_start_hls_sets st u url hf coord tr now us hus hok hjs htr⟩

/-- C10 witness: at a concrete state holding an hlsUrl, every operation of
the list reports the same URL afterwards, and a fresh successful hls start
reports the configured output URL. -/
theorem claimC10_witness :
    getHlsUrlForUser (stopStreamForUser
        ⟨[("u1", ⟨"rtmp://x", ⟨.stopped, none, 0, none⟩, 1, some true, some "https://hls/u1.m3u8", some .rtmp⟩)], []⟩
        "u1" ⟨true, ""⟩ 9).state "u1" = some "https://hls/u1.m3u8"
    ∧ getHlsUrlForUser (apiStopStream
        ⟨[("u1", ⟨"rtmp://x", ⟨.stopped, none, 0, none⟩, 1, some true, some "https://hls/u1.m3u8", some .rtmp⟩)], []⟩
        "u1" ⟨true, ""⟩ 9).state "u1" = some "https://hls/u1.m3u8"
    ∧ getHlsUrlForUser (startStreamForUser
        ⟨[("u1", ⟨"rtmp://x", ⟨.stopped, none, 0, none⟩, 1, some true, some "https://hls/u1.m3u8", some .rtmp⟩)], []⟩
        "u1" none (some true) (some .rtmp) ⟨true, "", some "https://hls/new.m3u8"⟩ ⟨true, ""⟩ false 9).state "u1" = some "https://hls/u1.m3u8"
    ∧ getHlsUrlForUser (updatePersistentSettingsForUser
        ⟨[("u1", ⟨"rtmp://x", ⟨.stopped, none, 0, none⟩, 1, some true, some "https://hls/u1.m3u8", some .rtmp⟩)], []⟩
        "u1" ⟨none, some (some .hls), some (some false)⟩) "u1" = some "https://hls/u1.m3u8"
    ∧ getHlsUrlForUser (setRtmpUrlForUser
        ⟨[("u1", ⟨"rtmp://x", ⟨.stopped, none, 0, none⟩, 1, some true, some "https://hls/u1.m3u8", some .rtmp⟩)], []⟩
        "u1" "rtmp://new/dest").state "u1" = some "https://hls/u1.m3u8"
    ∧ getHlsUrlForUser (onStatus
        ⟨[("u1", ⟨"rtmp://x", ⟨.stopped, none, 0, none⟩, 1, some true, some "https://hls/u1.m3u8", some .rtmp⟩)], []⟩
        "u1" 1 ⟨.stopped, none, 0, none⟩ 9).1 "u1" = some "https://hls/u1.m3u8"
    ∧ getHlsUrlForUser (startStreamForUser
        ⟨[("u1", ⟨"rtmp://x", ⟨.stopped, none, 0, none⟩, 1, some true, some "https://hls/u1.m3u8", some .rtmp⟩)], []⟩
        "u1" none (some true) (some .hls) ⟨true, "", some "https://hls/new.m3u8"⟩ ⟨true, ""⟩ false 9).state "u1" = some "https://hls/new.m3u8" := by
  have h := claimC10_hlsUrl_persistent
    ⟨[("u1", ⟨"rtmp://x", ⟨.stopped, none, 0, none⟩, 1, some true, some "https://hls/u1.m3u8", some .rtmp⟩)], []⟩
    "u1" "u1" none (some true) .rtmp ⟨true, "", some "https://hls/new.m3u8"⟩ ⟨true, ""⟩
    ⟨none, some (some .hls), some (some false)⟩ "rtmp://new/dest" 1 ⟨.stopped, none, 0, none⟩ 9
    (by decide)
  refine ⟨?_, ?_, ?_, ?_, ?_, ?_, ?_⟩
  · rw [h.1]; decide
  · rw [h.2.1]; decide
  · rw [h.2.2.1]; decide
  · rw [h.2.2.2.1]; decide
  · rw [h.2.2.2.2.1]; decide
  · rw [h.2.2.2.2.2.1]; decide
  · rw [h.2.2.2.2.2.2
        ⟨"rtmp://x", ⟨.stopped, none, 0, none⟩, 1, some true, some "https://hls/u1.m3u8", some .rtmp⟩
        (by decide) rfl (by decide) rfl]

end Rtmp
